import Mathlib

/-!
# Verification of odml-ui tab lifecycle and validation-window logic

Shallow embedding of the odml-ui editor code (`odmlui/editor_tab.py`,
`odmlui/EditorTab.py`, `odmlui/validation_window.py`).

Modelling conventions:
* The external odml library (parsing, `odml.validation.Validation`,
  `odml.save`, `odml.mapping`) is a collaborator.  Its outcomes are
  parameters of the embedded functions: the validation pass is passed in
  as the list of `ValidationError`s it produces for the document, file
  writing as a boolean success flag, parsing as a `ParseOutcome`.
* GUI side effects (info-bar messages, change events posted through the
  event system, opening the validation window, undo/redo button calls)
  are returned explicitly as data in the result records.
* A Python object attribute that may be absent (`document.validation_result`
  is created with `setattr` and removed with `del`) is an `Option` field.
-/

/-- A validation error produced by `odml.validation.Validation`: it points
at a document node (`obj`, modelled by a node id), carries a `path`, a
message and the error/warning flag `is_error`. -/
structure ValidationError where
  obj : Nat
  path : String
  msg : String
  is_error : Bool
deriving DecidableEq

/-- The odML document as the tab code sees it: only the
`validation_result` attribute is read or written by the excerpted code.
`none` models the attribute being absent (`hasattr` false). -/
structure Doc where
  validation_result : Option (List ValidationError)
deriving DecidableEq

/-- A change event as built in `update_validation_error_objects`:
`event.ChangeContext(('_error', True))` with `post_change = True`,
`action = "set"`, passed on to `err.obj` (the `target`). -/
structure ChangeContext where
  payload : String × Bool
  post_change : Bool
  action : String
  target : Nat
deriving DecidableEq

/-- `EditorTab.update_validation_error_objects` (editor_tab.py lines
245-254): posts one change event per error to that error's object. -/
def update_validation_error_objects (errors : List ValidationError) :
    List ChangeContext :=
  errors.map (fun err =>
    { payload := ("_error", true), post_change := true,
      action := "set", target := err.obj })

/-- `EditorTab.remove_validation` (editor_tab.py lines 256-262): if the
document has no `validation_result` attribute, do nothing; otherwise
delete it and post change events for its errors.  Returns the new
document and the posted events. -/
def remove_validation (d : Doc) : Doc × List ChangeContext :=
  match d.validation_result with
  | none => (d, [])
  | some errors =>
      ({ validation_result := none }, update_validation_error_objects errors)

/-- Outcome of `EditorTab.validate`: the document after the call, the
change events posted, whether a `ValidationWindow` was opened, and the
info-bar messages shown. -/
structure ValidateResult where
  doc : Doc
  events : List ChangeContext
  window_opened : Bool
  infos : List String
deriving DecidableEq

/-- `EditorTab.validate` (editor_tab.py lines 233-243).  The external
validation pass `odml.validation.Validation(self.document)` is passed in
as the error list `validation` it yields. -/
def validate (d : Doc) (validation : List ValidationError) : ValidateResult :=
  let r := remove_validation d
  let d2 : Doc := { validation_result := some validation }
  if validation.length > 0 then
    { doc := d2,
      events := r.2 ++ update_validation_error_objects validation,
      window_opened := true, infos := [] }
  else
    let r2 := remove_validation d2
    { doc := r2.1, events := r.2 ++ r2.2, window_opened := false,
      infos := ["The document is valid. No errors found."] }

/-- Outcome of `EditorTab.save`: the document, the tab's `edited`
counter after the call, whether `odml.save` was invoked
(`write_attempted`), the Python return value (`None` or `True`), the
info-bar messages (file names interpolated into them are elided), whether
`self.validate()` was re-triggered, and the posted change events. -/
structure SaveResult where
  doc : Doc
  edited : Nat
  write_attempted : Bool
  result : Option Bool
  infos : List String
  validate_called : Bool
  events : List ChangeContext
deriving DecidableEq

/-- `EditorTab.save` (editor_tab.py lines 159-205).  `edited` and
`cm_len` are the tab's `edited` counter and `len(self.command_manager)`;
`validation` is the error list the external validation pass yields for
the document (the nested `validate()` call recomputes it on the same
document, hence the same list); `write_ok` tells whether `odml.save`
succeeds.  Parser/extension selection and the `clean`/`finalize` calls
act on external state and are not observable here. -/
def save (d : Doc) (edited cm_len : Nat) (validation : List ValidationError)
    (write_ok : Bool) : SaveResult :=
  let r := remove_validation d
  let d2 : Doc := { validation_result := some validation }
  if validation.any (fun err => err.is_error) then
    let v := validate d2 validation
    { doc := v.doc, edited := edited, write_attempted := false,
      result := none,
      infos := "Invalid document. Please fix errors (red) before saving." ::
        v.infos,
      validate_called := true, events := r.2 ++ v.events }
  else if write_ok then
    { doc := d2, edited := cm_len, write_attempted := true,
      result := some true, infos := ["was saved"],
      validate_called := false, events := r.2 }
  else
    { doc := d2, edited := edited, write_attempted := true,
      result := none, infos := ["Save failed"],
      validate_called := false, events := r.2 }

/-- `EditorTab.update_validation_error_objects` of the legacy
`EditorTab.py` (lines 201-210): identical loop, local variable named `c`. -/
def legacy_update_validation_error_objects (errors : List ValidationError) :
    List ChangeContext :=
  errors.map (fun err =>
    { payload := ("_error", true), post_change := true,
      action := "set", target := err.obj })

/-- `EditorTab.remove_validation` of the legacy `EditorTab.py`
(lines 212-218). -/
def legacy_remove_validation (d : Doc) : Doc × List ChangeContext :=
  match d.validation_result with
  | none => (d, [])
  | some errors =>
      ({ validation_result := none },
        legacy_update_validation_error_objects errors)

/-- `EditorTab.validate` of the legacy `EditorTab.py` (lines 189-199). -/
def legacy_validate (d : Doc) (validation : List ValidationError) :
    ValidateResult :=
  let r := legacy_remove_validation d
  let d2 : Doc := { validation_result := some validation }
  if validation.length > 0 then
    { doc := d2,
      events := r.2 ++ legacy_update_validation_error_objects validation,
      window_opened := true, infos := [] }
  else
    let r2 := legacy_remove_validation d2
    { doc := r2.1, events := r.2 ++ r2.2, window_opened := false,
      infos := ["The document is valid. No errors found."] }

/-- C1: save validates first; any `is_error` error aborts the save with
the invalid-document notice, an unchanged `edited` counter and a
re-triggered `validate`; without such an error the write is attempted,
and a successful write returns `True` and sets `edited` to the command
manager's length. -/
theorem save_aborts_on_error_and_commits_on_success
    (d : Doc) (edited cm_len : Nat) (validation : List ValidationError)
    (write_ok : Bool) :
    (validation.any (fun err => err.is_error) = true →
      (save d edited cm_len validation write_ok).write_attempted = false ∧
      (save d edited cm_len validation write_ok).edited = edited ∧
      (save d edited cm_len validation write_ok).result = none ∧
      (save d edited cm_len validation write_ok).infos.head? =
        some "Invalid document. Please fix errors (red) before saving." ∧
      (save d edited cm_len validation write_ok).validate_called = true) ∧
    (validation.any (fun err => err.is_error) = false →
      (save d edited cm_len validation write_ok).write_attempted = true ∧
      (write_ok = true →
        (save d edited cm_len validation write_ok).result = some true ∧
        (save d edited cm_len validation write_ok).edited = cm_len)) := by
  constructor
  · intro h
    simp [save, h]
  · intro h
    constructor
    · cases write_ok <;> simp [save, h]
    · intro hw
      subst hw
      simp [save, h]

/-- Witness for C1 at concrete inputs: one erroneous validation outcome
(aborted save) and one clean validation outcome with a successful write. -/
theorem save_aborts_on_error_and_commits_on_success_witness :
    (save ⟨none⟩ 2 7 [⟨0, "p", "m", true⟩] true).edited = 2 ∧
    (save ⟨none⟩ 2 7 [⟨0, "p", "m", false⟩] true).edited = 7 := by
  constructor
  · exact ((save_aborts_on_error_and_commits_on_success
      ⟨none⟩ 2 7 [⟨0, "p", "m", true⟩] true).1 (by decide)).2.1
  · exact (((save_aborts_on_error_and_commits_on_success
      ⟨none⟩ 2 7 [⟨0, "p", "m", false⟩] true).2 (by decide)).2 rfl).2

/-- C2: validate attaches a fresh validation result; with a non-empty
error list it posts exactly one "set" `('_error', True)` change event to
each error's object and opens the window; with an empty list the result
is removed again and no window is opened. -/
theorem validate_attaches_result_and_posts_one_event_per_error
    (d : Doc) (validation : List ValidationError) :
    (validation ≠ [] →
      (validate d validation).doc.validation_result = some validation ∧
      (validate d validation).window_opened = true ∧
      (d.validation_result = none →
        (validate d validation).events = validation.map (fun err =>
          { payload := ("_error", true), post_change := true,
            action := "set", target := err.obj }))) ∧
    (validation = [] →
      (validate d validation).doc.validation_result = none ∧
      (validate d validation).window_opened = false ∧
      (d.validation_result = none → (validate d validation).events = [])) := by
  constructor
  · intro h
    have hlen : 0 < validation.length := List.length_pos.mpr h
    refine ⟨?_, ?_, ?_⟩
    · simp [validate, hlen]
    · simp [validate, hlen]
    · intro hd
      simp [validate, hlen, remove_validation, hd,
        update_validation_error_objects]
  · intro h
    subst h
    refine ⟨?_, ?_, ?_⟩
    · simp [validate, remove_validation]
    · simp [validate]
    · intro hd
      simp [validate, remove_validation, hd, update_validation_error_objects]

/-- Witness for C2 at concrete inputs: a one-error validation outcome and
an empty one, both on a document without a prior validation result. -/
theorem validate_attaches_result_and_posts_one_event_per_error_witness :
    (validate ⟨none⟩ [⟨3, "p", "m", false⟩]).events =
      [{ payload := ("_error", true), post_change := true,
         action := "set", target := 3 }] ∧
    (validate ⟨none⟩ []).window_opened = false := by
  constructor
  · exact (((validate_attaches_result_and_posts_one_event_per_error
      ⟨none⟩ [⟨3, "p", "m", false⟩]).1 (by decide)).2.2 rfl).trans (by decide)
  · exact ((validate_attaches_result_and_posts_one_event_per_error
      ⟨none⟩ []).2 rfl).2.1

/-- C10: the legacy `EditorTab.py` and current `editor_tab.py` versions of
`validate`, `update_validation_error_objects` and `remove_validation` are
extensionally equal. -/
theorem legacy_validate_equals_current_validate
    (d : Doc) (validation errors : List ValidationError) :
    legacy_validate d validation = validate d validation ∧
    legacy_remove_validation d = remove_validation d ∧
    legacy_update_validation_error_objects errors =
      update_validation_error_objects errors := by
  refine ⟨?_, ?_, rfl⟩
  · cases hd : d.validation_result <;>
      simp [legacy_validate, validate, legacy_remove_validation,
        remove_validation, hd, legacy_update_validation_error_objects,
        update_validation_error_objects]
  · cases hd : d.validation_result <;>
      simp [legacy_remove_validation, remove_validation, hd,
        legacy_update_validation_error_objects,
        update_validation_error_objects]

/-- A document reference for the clone/mapping model: `base n` is a
document loaded or created directly, `mapped d` is the mapping document
the external `odml.mapping.create_mapping` facility produces from `d`. -/
inductive DocRef where
  | base (n : Nat)
  | mapped (d : DocRef)
deriving DecidableEq

/-- The Python class of a tab: `EditorTab` or `MappingEditorTab`
(`isinstance(tab, MappingEditorTab)` becomes a `kind` test). -/
inductive TabKind where
  | regular
  | mapping
deriving DecidableEq

/-- A tab record as the clone-group code sees it.  `is_current` models
`self.window.current_tab is self`; `id` distinguishes tab objects. -/
structure Tab where
  id : Nat
  kind : TabKind
  document : DocRef
  file_uri : Option String
  edited : Nat
  is_current : Bool
deriving DecidableEq

/-- `EditorTab.__init__`: `self._clones = [self]` — a fresh tab's clone
group holds just the tab itself. -/
def init_clones (self : Tab) : List Tab := [self]

/-- `EditorTab._enable_undo`: call `window.enable_undo(enable)` only if
the tab is the window's current tab.  The returned list holds the
`(tab id, enable)` calls made. -/
def tab_enable_undo_call (tab : Tab) (enable : Bool) : List (Nat × Bool) :=
  if tab.is_current then [(tab.id, enable)] else []

/-- `EditorTab.enable_undo` (editor_tab.py lines 207-209): forward to
`_enable_undo` of every tab in the shared clone list, in list order. -/
def enable_undo (clones : List Tab) (enable : Bool) : List (Nat × Bool) :=
  clones.flatMap (fun tab => tab_enable_undo_call tab enable)

/-- `EditorTab._enable_redo`: symmetric to `_enable_undo`. -/
def tab_enable_redo_call (tab : Tab) (enable : Bool) : List (Nat × Bool) :=
  if tab.is_current then [(tab.id, enable)] else []

/-- `EditorTab.enable_redo` (editor_tab.py lines 215-217). -/
def enable_redo (clones : List Tab) (enable : Bool) : List (Nat × Bool) :=
  clones.flatMap (fun tab => tab_enable_redo_call tab enable)

/-- `EditorTab.clone` effect on the tab record: the new tab is built with
the source's class, shares the source's `file_uri` and `document`, and
starts with the class default `edited = 0`; it is not the window's
current tab at creation. -/
def clone_tab (source : Tab) (fresh_id : Nat) : Tab :=
  { id := fresh_id, kind := source.kind, document := source.document,
    file_uri := source.file_uri, edited := 0, is_current := false }

/-- `EditorTab.clone` effect on the shared `_clones` list:
`self._clones.append(ntab); ntab._clones = self._clones` — afterwards the
single group list (shared by all members) has `ntab` appended. -/
def clone_group (group : List Tab) (ntab : Tab) : List Tab :=
  group ++ [ntab]

/-- The shared per-group state: the clone list and the length of the one
command manager every clone shares. -/
structure TabGroup where
  tabs : List Tab
  cm_len : Nat
deriving DecidableEq

/-- `EditorTab.close` (editor_tab.py lines 272-276):
`self._clones.remove(self)` — remove the first occurrence of the tab from
the shared list; nothing else is touched. -/
def close_in_group (g : TabGroup) (t : Tab) : TabGroup :=
  { g with tabs := g.tabs.erase t }

/-- Modelled external facility `odml.mapping.create_mapping`: produces
the mapping document of its argument. -/
def create_mapping (d : DocRef) : DocRef := DocRef.mapped d

/-- `EditorTab.clone_mapping` (EditorTab.py lines 169-187).  The Python
`for tab in self._clones` loop returns a clone of the first
`MappingEditorTab` found; after a loop that finds none, the loop variable
`tab` is left bound to the LAST element of `self._clones`, and
`odml.mapping.create_mapping(tab.document)` is called on THAT tab's
document (with an empty clone list the name is unbound: `none`). -/
def clone_mapping (self : Tab) (group : List Tab) (fresh_id : Nat) :
    Option (Tab × List Tab) :=
  match group.find? (fun x => decide (x.kind = TabKind.mapping)) with
  | some mtab =>
      let ntab := clone_tab mtab fresh_id
      some (ntab, clone_group group ntab)
  | none =>
      match group.getLast? with
      | none => none
      | some last_tab =>
          let mapdoc := create_mapping last_tab.document
          let ntab :=
            { clone_tab self fresh_id with
                kind := TabKind.mapping, document := mapdoc }
          some (ntab, clone_group group ntab)

/-- `MappingEditorTab.close` (EditorTab.py lines 236-240): first remove
the tab from the clone group, then call
`odml.mapping.unmap_document(self.document._proxy_obj)` iff the filter
for remaining `MappingEditorTab`s is empty.  Returns the remaining group
and whether unmapping was invoked. -/
def mapping_tab_close (group : List Tab) (t : Tab) : List Tab × Bool :=
  let remaining := group.erase t
  (remaining,
    (remaining.filter (fun x => decide (x.kind = TabKind.mapping))).isEmpty)

/-- C3: `enable_undo`/`enable_redo` broadcast over the shared clone list
and reach exactly the member tabs that are their window's current tab;
the group starts as `[self]` and cloning only appends, so a tab stays in
its group until closed. -/
theorem enable_undo_redo_forward_to_current_tabs
    (clones group : List Tab) (b : Bool) (t n : Tab) :
    enable_undo clones b =
      (clones.filter (fun x => x.is_current)).map (fun x => (x.id, b)) ∧
    enable_redo clones b =
      (clones.filter (fun x => x.is_current)).map (fun x => (x.id, b)) ∧
    t ∈ init_clones t ∧
    (t ∈ group → t ∈ clone_group group n) := by
  refine ⟨?_, ?_, ?_, ?_⟩
  · induction clones with
    | nil => rfl
    | cons hd tl ih =>
        by_cases hc : hd.is_current <;>
          simp [enable_undo, tab_enable_undo_call, hc, List.filter_cons] at * <;>
          simpa [enable_undo] using ih
  · induction clones with
    | nil => rfl
    | cons hd tl ih =>
        by_cases hc : hd.is_current <;>
          simp [enable_redo, tab_enable_redo_call, hc, List.filter_cons] at * <;>
          simpa [enable_redo] using ih
  · simp [init_clones]
  · intro ht
    simp [clone_group, ht]

/-- Witness for C3 at a concrete two-tab group, one tab current. -/
theorem enable_undo_redo_forward_to_current_tabs_witness :
    enable_undo
      [{ id := 0, kind := TabKind.regular, document := DocRef.base 0,
         file_uri := none, edited := 0, is_current := true },
       { id := 1, kind := TabKind.regular, document := DocRef.base 0,
         file_uri := none, edited := 0, is_current := false }] true =
      [(0, true)] ∧
    ({ id := 0, kind := TabKind.regular, document := DocRef.base 0,
       file_uri := none, edited := 0, is_current := true } : Tab) ∈
      clone_group
        [{ id := 0, kind := TabKind.regular, document := DocRef.base 0,
           file_uri := none, edited := 0, is_current := true }]
        { id := 1, kind := TabKind.regular, document := DocRef.base 0,
          file_uri := none, edited := 0, is_current := false } := by
  constructor
  · exact ((enable_undo_redo_forward_to_current_tabs
      [{ id := 0, kind := TabKind.regular, document := DocRef.base 0,
         file_uri := none, edited := 0, is_current := true },
       { id := 1, kind := TabKind.regular, document := DocRef.base 0,
         file_uri := none, edited := 0, is_current := false }] []
      true
      { id := 0, kind := TabKind.regular, document := DocRef.base 0,
        file_uri := none, edited := 0, is_current := true }
      { id := 1, kind := TabKind.regular, document := DocRef.base 0,
        file_uri := none, edited := 0, is_current := false }).1).trans
      (by decide)
  · exact (enable_undo_redo_forward_to_current_tabs []
      [{ id := 0, kind := TabKind.regular, document := DocRef.base 0,
         file_uri := none, edited := 0, is_current := true }] true
      { id := 0, kind := TabKind.regular, document := DocRef.base 0,
        file_uri := none, edited := 0, is_current := true }
      { id := 1, kind := TabKind.regular, document := DocRef.base 0,
        file_uri := none, edited := 0, is_current := false }).2.2.2
      (by decide)

/-- C6: closing a tab erases exactly that tab from the shared clone
list — the remaining clones keep their records (documents, file_uri,
edited) and the group's command manager untouched — and later
undo/redo broadcasts no longer produce a call for the closed tab. -/
theorem close_removes_only_the_closed_tab
    (pre post : List Tab) (t : Tab) (cm : Nat) (b : Bool) :
    (t ∉ pre →
      close_in_group ⟨pre ++ t :: post, cm⟩ t = ⟨pre ++ post, cm⟩) ∧
    (close_in_group ⟨pre ++ t :: post, cm⟩ t).cm_len = cm ∧
    (t ∉ pre → (∀ u ∈ pre ++ post, u.id ≠ t.id) →
      (∀ p ∈ enable_undo (close_in_group ⟨pre ++ t :: post, cm⟩ t).tabs b,
        p.1 ≠ t.id) ∧
      (∀ p ∈ enable_redo (close_in_group ⟨pre ++ t :: post, cm⟩ t).tabs b,
        p.1 ≠ t.id)) := by
  have herase : ∀ _h : t ∉ pre, (pre ++ t :: post).erase t = pre ++ post := by
    intro h
    rw [List.erase_append_right _ h, List.erase_cons_head]
  refine ⟨?_, rfl, ?_⟩
  · intro h
    simp [close_in_group, herase h]
  · intro h hid
    constructor
    · intro p hp
      simp only [close_in_group, herase h, enable_undo,
        List.mem_flatMap, tab_enable_undo_call] at hp
      obtain ⟨u, hu, hpu⟩ := hp
      by_cases hc : u.is_current
      · simp [hc] at hpu
        subst hpu
        exact hid u hu
      · simp [hc] at hpu
    · intro p hp
      simp only [close_in_group, herase h, enable_redo,
        List.mem_flatMap, tab_enable_redo_call] at hp
      obtain ⟨u, hu, hpu⟩ := hp
      by_cases hc : u.is_current
      · simp [hc] at hpu
        subst hpu
        exact hid u hu
      · simp [hc] at hpu

/-- Witness for C6 at a concrete two-tab group. -/
theorem close_removes_only_the_closed_tab_witness :
    close_in_group
      ⟨[{ id := 0, kind := TabKind.regular, document := DocRef.base 0,
          file_uri := none, edited := 1, is_current := false },
        { id := 1, kind := TabKind.regular, document := DocRef.base 0,
          file_uri := none, edited := 2, is_current := true }], 4⟩
      { id := 1, kind := TabKind.regular, document := DocRef.base 0,
        file_uri := none, edited := 2, is_current := true } =
      ⟨[{ id := 0, kind := TabKind.regular, document := DocRef.base 0,
          file_uri := none, edited := 1, is_current := false }], 4⟩ :=
  (close_removes_only_the_closed_tab
    [{ id := 0, kind := TabKind.regular, document := DocRef.base 0,
       file_uri := none, edited := 1, is_current := false }] []
    { id := 1, kind := TabKind.regular, document := DocRef.base 0,
      file_uri := none, edited := 2, is_current := true } 4 true).1
    (by decide)

/-- C7: `MappingEditorTab.close` removes the tab from the clone group
and reports the unmap call exactly when no mapping tab remains in the
group after the removal. -/
theorem mapping_close_unmaps_iff_no_mapping_tab_left
    (group : List Tab) (t : Tab) :
    (mapping_tab_close group t).1 = group.erase t ∧
    ((mapping_tab_close group t).2 = true ↔
      ∀ x ∈ group.erase t, x.kind ≠ TabKind.mapping) := by
  refine ⟨rfl, ?_⟩
  simp [mapping_tab_close, List.isEmpty_iff, List.filter_eq_nil_iff]

/-- Witness for C7: closing the only mapping tab of a two-tab group
triggers the unmap call. -/
theorem mapping_close_unmaps_iff_no_mapping_tab_left_witness :
    (mapping_tab_close
      [{ id := 0, kind := TabKind.regular, document := DocRef.base 0,
         file_uri := none, edited := 0, is_current := false },
       { id := 1, kind := TabKind.mapping,
         document := DocRef.mapped (DocRef.base 0),
         file_uri := none, edited := 0, is_current := true }]
      { id := 1, kind := TabKind.mapping,
        document := DocRef.mapped (DocRef.base 0),
        file_uri := none, edited := 0, is_current := true }).2 = true :=
  (mapping_close_unmaps_iff_no_mapping_tab_left
    [{ id := 0, kind := TabKind.regular, document := DocRef.base 0,
       file_uri := none, edited := 0, is_current := false },
     { id := 1, kind := TabKind.mapping,
       document := DocRef.mapped (DocRef.base 0),
       file_uri := none, edited := 0, is_current := true }]
    { id := 1, kind := TabKind.mapping,
      document := DocRef.mapped (DocRef.base 0),
      file_uri := none, edited := 0, is_current := true }).2.mpr
    (by decide)

/-- Tab used as a concrete counterexample input: a regular tab holding
document `base 0`. -/
def c4_tab_self : Tab :=
  { id := 0, kind := TabKind.regular, document := DocRef.base 0,
    file_uri := none, edited := 0, is_current := true }

/-- Second tab in the same clone group whose document has diverged (it
was re-loaded): it holds `base 1`. -/
def c4_tab_other : Tab :=
  { id := 1, kind := TabKind.regular, document := DocRef.base 1,
    file_uri := none, edited := 0, is_current := false }

/-- C4: on the group `[self, other]` with no mapping tab, the Python
loop variable `tab` leaks out of the `for` loop, so
`create_mapping(tab.document)` receives the LAST clone's document
(`base 1`), not `self`'s own document (`base 0`); with an empty clone
list the call does not even produce a tab (unbound name).  This
contradicts the claim that the mapping document is created from this
tab's own document. -/
theorem clone_mapping_maps_last_tabs_document :
    (clone_mapping c4_tab_self [c4_tab_self, c4_tab_other] 2).map
        (fun p => p.1.document) =
      some (create_mapping c4_tab_other.document) ∧
    (clone_mapping c4_tab_self [c4_tab_self, c4_tab_other] 2).map
        (fun p => p.1.document) ≠
      some (create_mapping c4_tab_self.document) ∧
    clone_mapping c4_tab_self [] 2 = none := by
  refine ⟨rfl, ?_, rfl⟩
  intro h
  simp [clone_mapping, c4_tab_self, c4_tab_other, clone_tab, clone_group,
    create_mapping] at h

/-- Column index constants of validation_window.py. -/
def COL_PATH : Nat := 0

/-- Column index of the (invisible) error index in the backing store. -/
def COL_INDEX : Nat := 1

/-- Column index of the description text. -/
def COL_DESC : Nat := 2

/-- A tree-view column added with `add_column(name=..., data=..., col_id=...)`. -/
structure TreeColumn where
  name : String
  data : Nat
  col_id : Nat
deriving DecidableEq

/-- `ValidationView.__init__` (validation_window.py lines 22-33): the
two visible columns added over the `(str, int, str)` backing store. -/
def validation_view_columns : List TreeColumn :=
  [{ name := "Path", data := COL_PATH, col_id := COL_PATH },
   { name := "Description", data := COL_DESC, col_id := COL_DESC }]

/-- A rendered store row of the validation view.  The Pango span markup
of the source is modelled structurally: `path_grey` records the
darkgrey span wrapped around a warning row's path, `warn_color` the
color of the warning-sign span prefixed to the message ("red" for
errors, "orange" for warnings). -/
structure VRow where
  path : String
  path_grey : Bool
  index : Nat
  warn_color : String
  msg : String
deriving DecidableEq

/-- The loop body of `ValidationView.fill` rendering one sorted element
`(path, idx, msg, is_error)` into a store row. -/
def render_row (e : String × Nat × String × Bool) : VRow :=
  { path := e.1, path_grey := !e.2.2.2, index := e.2.1,
    warn_color := if e.2.2.2 then "red" else "orange", msg := e.2.2.1 }

/-- The order `elements.sort()` uses in `ValidationView.fill`: Python
compares the tuples `(err.path, j, err.msg, err.is_error)`
lexicographically; the enumeration indices `j` are pairwise distinct, so
the comparison is always decided by `path` and then `j`, and the
embedded relation compares exactly those two components. -/
def elt_le (a b : String × Nat × String × Bool) : Prop :=
  a.1 < b.1 ∨ (a.1 = b.1 ∧ a.2.1 ≤ b.2.1)

instance elt_le_decidable : DecidableRel elt_le := fun a b => by
  unfold elt_le
  infer_instance

instance elt_le_total : IsTotal (String × Nat × String × Bool) elt_le := by
  constructor
  intro a b
  rcases lt_trichotomy a.1 b.1 with h | h | h
  · exact Or.inl (Or.inl h)
  · rcases Nat.le_total a.2.1 b.2.1 with hn | hn
    · exact Or.inl (Or.inr ⟨h, hn⟩)
    · exact Or.inr (Or.inr ⟨h.symm, hn⟩)
  · exact Or.inr (Or.inl h)

instance elt_le_trans : IsTrans (String × Nat × String × Bool) elt_le := by
  constructor
  intro a b c hab hbc
  rcases hab with h1 | ⟨h1, h1n⟩ <;> rcases hbc with h2 | ⟨h2, h2n⟩
  · exact Or.inl (lt_trans h1 h2)
  · exact Or.inl (h2 ▸ h1)
  · exact Or.inl (h1 ▸ h2)
  · exact Or.inr ⟨h1.trans h2, le_trans h1n h2n⟩

/-- `ValidationView.fill` (validation_window.py lines 39-53): clear the
store, enumerate the errors into `(path, j, msg, is_error)` tuples, sort
them, and append one rendered row per tuple.  The result is the new
store content (the clear makes it independent of the previous content). -/
def fill (errors : List ValidationError) : List VRow :=
  let elements := errors.enum.map
    (fun p => (p.2.path, p.1, p.2.msg, p.2.is_error))
  (List.insertionSort elt_le elements).map render_row

/-- C5: the validation view has exactly the two visible columns "Path"
and "Description"; `fill` produces exactly one row per error (a
permutation of the rendered enumerated errors), the rows are ordered by
path, and warning rows are rendered differently (grey path, orange sign)
from error rows (plain path, red sign). -/
theorem validation_view_columns_and_fill_sorted
    (errors : List ValidationError) :
    validation_view_columns.map TreeColumn.name = ["Path", "Description"] ∧
    (fill errors).length = errors.length ∧
    (fill errors).Perm (errors.enum.map (fun p =>
      render_row (p.2.path, p.1, p.2.msg, p.2.is_error))) ∧
    (fill errors).Pairwise (fun r s => r.path ≤ s.path) ∧
    (∀ e : String × Nat × String × Bool,
      (e.2.2.2 = true →
        render_row e = ⟨e.1, false, e.2.1, "red", e.2.2.1⟩) ∧
      (e.2.2.2 = false →
        render_row e = ⟨e.1, true, e.2.1, "orange", e.2.2.1⟩)) := by
  refine ⟨rfl, ?_, ?_, ?_, ?_⟩
  · simp [fill, List.length_insertionSort, List.enum_length]
  · simpa [fill, List.map_map] using
      (List.perm_insertionSort elt_le
        (errors.enum.map
          (fun p => (p.2.path, p.1, p.2.msg, p.2.is_error)))).map render_row
  · have hs := List.sorted_insertionSort elt_le
      (errors.enum.map (fun p => (p.2.path, p.1, p.2.msg, p.2.is_error)))
    exact List.Pairwise.map render_row
      (fun a b hab => by
        rcases hab with h | ⟨h, _⟩
        · exact le_of_lt h
        · exact le_of_eq h) hs
  · intro e
    constructor <;> intro h <;> simp [render_row, h]

/-- Witness for C5 at a two-error list whose paths arrive out of order. -/
theorem validation_view_columns_and_fill_sorted_witness :
    (fill [⟨7, "b", "m1", true⟩, ⟨8, "a", "m2", false⟩]).length = 2 :=
  (validation_view_columns_and_fill_sorted
    [⟨7, "b", "m1", true⟩, ⟨8, "a", "m2", false⟩]).2.1

/-- Modelled from the spec: the `CommandManager` class lives in
`odmlui/command_manager.py`, which is not part of the excerpt.  Per the
spec it records the undoable commands; `len(self.command_manager)` is
their number and `reset()` clears the stack back to length 0. -/
structure CommandManager where
  commands : List Nat
deriving DecidableEq

/-- Modelled from the spec: `CommandManager.reset` clears the stack. -/
def CommandManager.reset (cm : CommandManager) : CommandManager :=
  { cm with commands := [] }

/-- `len(self.command_manager)`. -/
def CommandManager.size (cm : CommandManager) : Nat := cm.commands.length

/-- The modification-tracking state of a tab: its `edited` marker and
its command manager. -/
structure EdState where
  edited : Nat
  cm : CommandManager
deriving DecidableEq

/-- `EditorTab.is_modified` (editor_tab.py lines 124-126):
`self.edited != len(self.command_manager)`. -/
def is_modified (s : EdState) : Bool := s.edited != s.cm.size

/-- `EditorTab.reset` (editor_tab.py lines 117-122): set `edited` to 0
and reset the command manager (the `enable_undo(False)` /
`enable_redo(False)` broadcasts touch only GUI buttons). -/
def EdState.reset (s : EdState) : EdState :=
  { edited := 0, cm := s.cm.reset }

/-- C8: `is_modified` holds exactly when `edited` differs from the
command-manager length; a freshly reset tab is unmodified; a successful
save (no `is_error` error, write succeeds) leaves the tab unmodified
because it sets `edited` to the command-manager length. -/
theorem is_modified_iff_edited_differs_from_cm_length
    (s : EdState) (d : Doc) (e : Nat) (v : List ValidationError) :
    (is_modified s = true ↔ s.edited ≠ s.cm.size) ∧
    is_modified s.reset = false ∧
    (v.any (fun err => err.is_error) = false →
      is_modified ⟨(save d e s.cm.size v true).edited, s.cm⟩ = false) := by
  refine ⟨?_, ?_, ?_⟩
  · simp [is_modified]
  · simp [is_modified, EdState.reset, CommandManager.reset,
      CommandManager.size]
  · intro h
    simp [save, h, is_modified]

/-- Witness for C8: a reset tab and a freshly saved tab are unmodified. -/
theorem is_modified_iff_edited_differs_from_cm_length_witness :
    is_modified (EdState.reset ⟨5, ⟨[1, 2]⟩⟩) = false ∧
    is_modified ⟨(save ⟨none⟩ 3 (CommandManager.size ⟨[9, 9]⟩) [] true).edited,
      ⟨[9, 9]⟩⟩ = false := by
  constructor
  · exact (is_modified_iff_edited_differs_from_cm_length
      ⟨5, ⟨[1, 2]⟩⟩ ⟨none⟩ 0 []).2.1
  · exact (is_modified_iff_edited_differs_from_cm_length
      ⟨3, ⟨[9, 9]⟩⟩ ⟨none⟩ 3 []).2.2 (by decide)

/-- The outcome of the external odml parse attempt in `load`:
success with a document, `InvalidVersionException`, or any other
exception. -/
inductive ParseOutcome where
  | ok (doc : Doc)
  | invalid_version
  | failed (msg : String)
deriving DecidableEq

/-- The load-relevant tab state: its `file_uri` and `document`
attributes. -/
structure LoadTab where
  file_uri : Option String
  document : Option Doc
deriving DecidableEq

/-- `EditorTab.load` (editor_tab.py lines 56-86; the legacy
EditorTab.py lines 57-73 collapses the two except branches into one):
`self.file_uri = uri` is assigned before parsing is attempted; each
except branch shows a dialog and returns `False` without assigning
`self.document`; on success the parsed document is stored and `True`
returned. -/
def load (t : LoadTab) (uri : String) (outcome : ParseOutcome) :
    LoadTab × Bool :=
  let t1 : LoadTab := { t with file_uri := some uri }
  match outcome with
  | ParseOutcome.ok d => ({ t1 with document := some d }, true)
  | ParseOutcome.invalid_version => (t1, false)
  | ParseOutcome.failed _ => (t1, false)

/-- C9: on any parse failure `load` returns `False` and keeps the
previous document, but `file_uri` has already been overwritten with the
failing uri. -/
theorem load_failure_keeps_document_but_uri_already_set
    (t : LoadTab) (uri : String) (outcome : ParseOutcome)
    (h : ∀ d, outcome ≠ ParseOutcome.ok d) :
    (load t uri outcome).2 = false ∧
    (load t uri outcome).1.document = t.document ∧
    (load t uri outcome).1.file_uri = some uri := by
  cases outcome with
  | ok d => exact absurd rfl (h d)
  | invalid_version => exact ⟨rfl, rfl, rfl⟩
  | failed m => exact ⟨rfl, rfl, rfl⟩

/-- Witness for C9: a failing parse of "new.xml" on a tab that held
"old.xml". -/
theorem load_failure_keeps_document_but_uri_already_set_witness :
    (load ⟨some "old.xml", some ⟨none⟩⟩ "new.xml"
      ParseOutcome.invalid_version).1.file_uri = some "new.xml" ∧
    (load ⟨some "old.xml", some ⟨none⟩⟩ "new.xml"
      ParseOutcome.invalid_version).1.document = some ⟨none⟩ := by
  have h := load_failure_keeps_document_but_uri_already_set
    ⟨some "old.xml", some ⟨none⟩⟩ "new.xml" ParseOutcome.invalid_version
    (by intro d hc; cases hc)
  exact ⟨h.2.2, h.2.1⟩
